import Mathlib

/-!
Shallow embedding of `extensions/amp-youtube/1.0/component.js` (the amphtml
YouTube Bento component) and proofs of its specification claims.

The component's logic is pure apart from DOM side effects, which we reify:
dispatching a lifecycle event and posting a message into the iframe become
constructors of an `Effect` list produced by the handlers.  JavaScript values
flowing through the message bridge are modelled by `JsVal` (the wire format of
the embed protocol only carries numbers and booleans inside `info`, plus
null/undefined/absent fields).
-/

namespace AmpYoutube

/-- JavaScript number as it appears in this component: either NaN (the default
duration) or an integer (player-state codes, times delivered over the wire). -/
inductive JsNum where
  | nan
  | int (n : Int)
deriving DecidableEq, Repr

/-- JavaScript value model for fields of the parsed message payload. -/
inductive JsVal where
  | undef
  | null
  | num (n : JsNum)
  | boolean (b : Bool)
deriving DecidableEq, Repr

/-- JavaScript truthiness for `JsVal` (used for `parsedInfo['muted']` and the
falsy check on `parsedData`/`info`). -/
def truthy : JsVal → Bool
  | .undef => false
  | .null => false
  | .num .nan => false
  | .num (.int n) => n != 0
  | .boolean b => b

/-- JavaScript loose inequality `v != null`: true exactly when `v` is neither
`null` nor `undefined`. -/
def nonNull : JsVal → Bool
  | .undef => false
  | .null => false
  | _ => true

/-- JavaScript loose equality `v == 0` on our value domain: an integer zero or
`false` compare loosely equal to `0`; NaN, null, undefined do not. -/
def looseEqZero : JsVal → Bool
  | .num (.int n) => n == 0
  | .boolean b => !b
  | _ => false

/-- Base-10 digits of a natural number, least significant first, with an
explicit fuel argument so that the recursion is structural (the fuel `n`
itself always suffices since the argument shrinks by a factor of ten). -/
def natDigitsRevAux : Nat → Nat → List Nat
  | 0, _ => []
  | _ + 1, 0 => []
  | fuel + 1, n => n % 10 :: natDigitsRevAux fuel (n / 10)

/-- Base-10 digits of a natural number, least significant first (empty for
zero). -/
def natDigitsRev (n : Nat) : List Nat :=
  natDigitsRevAux n n

/-- Evaluation of a little-endian base-10 digit list back to a natural
number (used only to invert `natDigitsRev` in proofs). -/
def digitsVal : List Nat → Nat
  | [] => 0
  | d :: ds => d + 10 * digitsVal ds

/-- Numeric value of a decimal digit character (used only to invert the digit
rendering in proofs). -/
def charToDigit (c : Char) : Nat :=
  c.toNat - 48

/-- Decimal digit characters of a natural number, most significant first
(JavaScript's canonical base-10 `Number.prototype.toString` for naturals). -/
def natToDecimal (n : Nat) : String :=
  if n = 0 then "0"
  else ((natDigitsRev n).reverse.map fun d => Char.ofNat (48 + d)).asString

/-- Decimal string of an integer, with a leading minus sign when negative
(JavaScript's base-10 `Number.prototype.toString` for integers). -/
def intToDecimal : Int → String
  | .ofNat n => natToDecimal n
  | .negSucc n => "-" ++ natToDecimal (n + 1)

/-- JavaScript `.toString()` on our value domain (only reached on non-null,
non-undefined values in the handler; made total for convenience). -/
def jsToString : JsVal → String
  | .undef => "undefined"
  | .null => "null"
  | .num .nan => "NaN"
  | .num (.int n) => intToDecimal n
  | .boolean b => if b then "true" else "false"

/-- The fixed `PlayerStates` table of `component.js`, keyed by the stringified
player-state code; `none` models the `undefined` a JS object lookup yields for
a key outside the table. -/
def PlayerStates (s : String) : Option String :=
  if s = "-1" then some "unstarted"
  else if s = "0" then some "ended"
  else if s = "1" then some "playing"
  else if s = "2" then some "pause"
  else if s = "3" then some "buffering"
  else if s = "5" then some "video_cued"
  else none

/-- The `methods` table of `component.js` mapping logical method names to the
embed's remote-procedure names. -/
def methods (m : String) : Option String :=
  if m = "play" then some "playVideo"
  else if m = "pause" then some "pauseVideo"
  else if m = "unmute" then some "unMute"
  else none

/-- Value of `PlayerFlags.HIDE_ANNOTATION` in `component.js`: tells YouTube to
hide annotations by default. -/
def hideAnnotationFlag : Nat := 3

/-- Modelled from the spec: the lifecycle event names of the host framework's
video interface (`VideoEvents` from `src/video-interface.js`, which is not
part of the sources under verification).  `LOADEDMETADATA` is the
"metadata loaded" event. -/
def VideoEventsLoadedMetadata : String := "loadedmetadata"

/-- Modelled from the spec: the muted variant of the mute/unmute lifecycle
event pair (`VideoEvents.MUTED`). -/
def VideoEventsMuted : String := "muted"

/-- Modelled from the spec: the unmuted variant of the mute/unmute lifecycle
event pair (`VideoEvents.UNMUTED`). -/
def VideoEventsUnmuted : String := "unmuted"

/-- Modelled from the spec: `mutedOrUnmutedEvent` from `src/iframe-video.js`
(not part of the sources under verification) — "emit a mute/unmute event
derived from that value": the muted variant for a truthy argument, the
unmuted variant otherwise. -/
def mutedOrUnmutedEvent (v : JsVal) : String :=
  if truthy v then VideoEventsMuted else VideoEventsUnmuted

/-- An outbound message posted into the frame, after `JSON.stringify`: the
`event` field and the optional `func` field (absent for the `listening`
handshake; `none` in `func` position otherwise models an undefined
remote-procedure name). -/
structure OutMsg where
  event : String
  func : Option String
deriving DecidableEq, Repr

/-- Reified DOM side effects of the handlers: dispatching a custom event on
the iframe (with `none` modelling an `undefined` event name) and posting a
message into the frame's content window. -/
inductive Effect where
  | dispatchEvent (name : Option String)
  | postMessage (msg : OutMsg)
deriving DecidableEq, Repr

/-- Effect of `dispatchVideoEvent` of `component.js`: dispatch one custom
event with the given name. -/
def dispatchVideoEvent (name : Option String) : List Effect :=
  [Effect.dispatchEvent name]

/-- Effect of `currentTarget.contentWindow.postMessage(JSON.stringify(m))`:
post one message into the frame. -/
def postToFrame (m : OutMsg) : List Effect :=
  [Effect.postMessage m]

/-- The `makeMethodMessage` function of `component.js`: serialize an event
"command" message whose `func` is the `methods` table entry for the logical
method name (`none`, i.e. undefined, when the name is unmapped). -/
def makeMethodMessage (method : String) : OutMsg :=
  { event := "command", func := methods method }

/-- The player-state record, as the ordered key/value pairs of the JS object
held in `playerStateRef.current`. -/
abbrev PlayerInfo : Type := List (String × JsVal)

/-- The `createDefaultInfo` function of `component.js`: currentTime 0 and
duration NaN. -/
def createDefaultInfo : PlayerInfo :=
  [("currentTime", JsVal.num (JsNum.int 0)), ("duration", JsVal.num JsNum.nan)]

/-- A successfully parsed inbound message (the result of `objOrParseJson` when
it yields a truthy object): its `event` field (a string, per the wire format;
`none` when absent) and its `info` field, a payload object giving a `JsVal`
for every key (`.undef` for absent keys), or `none` when `info` is absent or
null (the falsy check `if (!parsedInfo) return`). -/
structure ParsedData where
  event : Option String
  info : Option (String → JsVal)

/-- The merge loop of `onMessage`: for each key of the local player-state
record (in order), overwrite its value when the payload holds a loosely
non-null value for that key. -/
def mergeInfo (st : PlayerInfo) (payload : String → JsVal) : PlayerInfo :=
  st.map fun kv => if nonNull (payload kv.1) then (kv.1, payload kv.1) else kv

/-- The `onMessage` handler of `component.js`, with `loop` the effective loop
flag captured by the closure and `st` the current player-state record.  The
`data` argument is the result of `objOrParseJson`, modelled from the spec as
an `Option` ("a safe JSON-or-passthrough parser", falsy on failure).  Returns
the new player-state record and the reified DOM effects, in program order. -/
def onMessage (loop : Bool) (st : PlayerInfo) (data : Option ParsedData) :
    PlayerInfo × List Effect :=
  match data with
  | none => (st, [])
  | some parsedData =>
    if parsedData.event = some "initialDelivery" then
      (st, dispatchVideoEvent (some VideoEventsLoadedMetadata))
    else
      match parsedData.info with
      | none => (st, [])
      | some parsedInfo =>
        let info := mergeInfo st parsedInfo
        let playerState := parsedInfo "playerState"
        let effectsPlay :=
          if parsedData.event = some "infoDelivery" ∧ looseEqZero playerState = true ∧
              loop = true then
            postToFrame { event := "command", func := some "playVideo" }
          else []
        let effectsState :=
          if parsedData.event = some "infoDelivery" ∧ nonNull playerState = true then
            dispatchVideoEvent (PlayerStates (jsToString playerState))
          else []
        let effectsMuted :=
          if parsedData.event = some "infoDelivery" ∧ truthy (parsedInfo "muted") = true then
            dispatchVideoEvent (some (mutedOrUnmutedEvent (parsedInfo "muted")))
          else []
        (info, effectsPlay ++ effectsState ++ effectsMuted)

/-- The messages posted into the frame among a list of effects, in order. -/
def postedMessages (effects : List Effect) : List OutMsg :=
  effects.filterMap fun e =>
    match e with
    | .postMessage m => some m
    | _ => none

/-- The names of the custom events dispatched among a list of effects, in
order (`none` is a dispatch with an undefined name). -/
def dispatchedEvents (effects : List Effect) : List (Option String) :=
  effects.filterMap fun e =>
    match e with
    | .dispatchEvent n => some n
    | _ => none

/-- The `onIframeLoad` callback of `component.js`: dispatch "canplay", then
post the one-time listening handshake message. -/
def onIframeLoad : List Effect :=
  dispatchVideoEvent (some "canplay") ++ postToFrame { event := "listening", func := none }

/-- The working parameter mapping of the URL builder, as the ordered key/value
pairs of the `params` JS object. -/
abbrev Params : Type := List (String × String)

/-- JavaScript `key in params`: whether the object has the key. -/
def hasParam (ps : Params) (k : String) : Bool :=
  ps.any fun p => p.1 = k

/-- JavaScript `params[key] = v`: overwrite the value in place when the key
exists, otherwise append the new entry (JS insertion-order semantics for
non-index string keys). -/
def setParam (ps : Params) (k v : String) : Params :=
  if hasParam ps k then List.map (fun p => if p.1 = k then (k, v) else p) ps
  else ps ++ [(k, v)]

/-- JavaScript `delete params[key]`. -/
def deleteParam (ps : Params) (k : String) : Params :=
  ps.filter fun p => p.1 ≠ k

/-- Hexadecimal digit character (uppercase, as produced by
`encodeURIComponent`). -/
def hexDigit (n : Nat) : Char :=
  if n < 10 then Char.ofNat (48 + n) else Char.ofNat (55 + n)

/-- Two-character uppercase hexadecimal form of a byte. -/
def byteHex (b : Nat) : String :=
  String.mk [hexDigit (b / 16), hexDigit (b % 16)]

/-- UTF-8 bytes of a character, as natural numbers. -/
def utf8Bytes (c : Char) : List Nat :=
  let n := c.toNat
  if n < 128 then [n]
  else if n < 2048 then [192 + n / 64, 128 + n % 64]
  else if n < 65536 then [224 + n / 4096, 128 + n / 64 % 64, 128 + n % 64]
  else [240 + n / 262144, 128 + n / 4096 % 64, 128 + n / 64 % 64, 128 + n % 64]

/-- Characters `encodeURIComponent` leaves unescaped: alphanumerics and
the marks of RFC 2396. -/
def uriUnreserved (c : Char) : Bool :=
  c.isAlphanum || c = '-' || c = '_' || c = '.' || c = '!' || c = '~' ||
    c = '*' || c = Char.ofNat 39 || c = '(' || c = ')'

/-- The JavaScript builtin `encodeURIComponent`: percent-encode the UTF-8
bytes of every character outside the unreserved set. -/
def encodeURIComponent (s : String) : String :=
  s.data.foldl
    (fun acc c =>
      if uriUnreserved c then acc.push c
      else acc ++ String.join ((utf8Bytes c).map fun b => "%" ++ byteHex b))
    ""

/-- A produced embed URL.  Modelled from the spec: `addParamsToUrl` from
`src/url.js` (not part of the sources under verification) "appends the
remaining parameters to the URL as a query string"; we keep the appended
query structured as the ordered parameter list next to the base URL string,
so that "the URL contains parameter k=v" is membership in `query`. -/
structure Url where
  base : String
  query : Params
deriving DecidableEq

/-- Modelled from the spec: the URL query-parameter appender (`addParamsToUrl`
of `src/url.js`), represented structurally. -/
def addParamsToUrl (url : String) (ps : Params) : Url :=
  { base := url, query := ps }

/-- JavaScript truthiness of an optional string prop: present and non-empty. -/
def strTruthy (s : Option String) : Bool :=
  (s.getD "") ≠ ""

/-- The `getEmbedUrl` function of `component.js`. -/
def getEmbedUrl (credentials : Option String) (videoid liveChannelid : Option String) :
    String :=
  let urlSuffix := if credentials = some "omit" then "-nocookie" else ""
  let baseUrl := "https://www.youtube" ++ urlSuffix ++ ".com/embed/"
  let descriptor :=
    if strTruthy videoid then
      encodeURIComponent (videoid.getD "") ++ "?"
    else
      "live_stream?channel=" ++ encodeURIComponent (liveChannelid.getD "") ++ "&"
  baseUrl ++ descriptor ++ "enablejsapi=1&amp=1"

/-- The props of the component that its own logic consumes (`rest` props are
passed through untouched and omitted). -/
structure YoutubeProps where
  autoplay : Bool
  loop : Bool
  videoid : Option String
  liveChannelid : Option String
  params : Params
  credentials : Option String

/-- What construction hands to the `VideoWrapper` collaborator: the embed URL,
the effective autoplay and loop flags (the latter captured by the `onMessage`
closure), the initial player-state record, and the fixed sandbox policy. -/
structure BuiltComponent where
  src : Url
  autoplay : Bool
  loop : Bool
  playerState : PlayerInfo
  sandbox : String
deriving DecidableEq

/-- Step 1 of the parameter mutations of `YoutubeWithRef`: default
`playsinline` to the string one when absent. -/
def stepPlaysinlineDefault (ps : Params) : Params :=
  if ¬ hasParam ps "playsinline" then setParam ps "playsinline" "1" else ps

/-- Step 2: when an `autoplay` key is present, delete it and force the
autoplay flag true (the caller-declared parameter takes precedence). -/
def stepAutoplayKey (autoplay : Bool) (ps : Params) : Params × Bool :=
  if hasParam ps "autoplay" then (deleteParam ps "autoplay", true) else (ps, autoplay)

/-- Step 3: when autoplay is in effect, default `iv_load_policy` to the
hide-annotations flag and force `playsinline` to the string one regardless of
its original value. -/
def stepAutoplayFlags (autoplay : Bool) (ps : Params) : Params :=
  if autoplay then
    let psIv :=
      if ¬ hasParam ps "iv_load_policy" then
        setParam ps "iv_load_policy" (natToDecimal hideAnnotationFlag)
      else ps
    setParam psIv "playsinline" "1"
  else ps

/-- Step 4: when a `loop` key is present, force the loop flag true and delete
the key. -/
def stepLoopKey (loop : Bool) (ps : Params) : Params × Bool :=
  if hasParam ps "loop" then (deleteParam ps "loop", true) else (ps, loop)

/-- Step 5: when looping is in effect, express it as `loop=1` if a playlist is
present, otherwise drop any remaining `loop` key. -/
def stepLoopFlag (loop : Bool) (ps : Params) : Params :=
  if loop then
    if hasParam ps "playlist" then setParam ps "loop" "1"
    else if hasParam ps "loop" then deleteParam ps "loop"
    else ps
  else ps

/-- The parameter-mutation steps of `YoutubeWithRef`, in source order,
returning the worked parameter mapping and the effective autoplay and loop
flags. -/
def applyParamSteps (autoplay0 loop0 : Bool) (params0 : Params) :
    Params × Bool × Bool :=
  let params1 := stepPlaysinlineDefault params0
  let step2 := stepAutoplayKey autoplay0 params1
  let params3 := stepAutoplayFlags step2.2 step2.1
  let step4 := stepLoopKey loop0 params3
  let params5 := stepLoopFlag step4.2 step4.1
  (params5, step2.2, step4.2)

/-- The `YoutubeWithRef` component function of `component.js`: throw when not
exactly one of the identifiers is truthy, otherwise build the embed URL,
apply the parameter steps, and hand the result to the wrapper.  A thrown
`Error` is the `Except.error` case, carrying the message. -/
def YoutubeWithRef (p : YoutubeProps) : Except String BuiltComponent :=
  let datasourceExists :=
    !(strTruthy p.videoid && strTruthy p.liveChannelid) &&
      (strTruthy p.videoid || strTruthy p.liveChannelid)
  if !datasourceExists then
    Except.error
      "Exactly one of data-videoid or data-live-channelid should be present for <amp-youtube>"
  else
    let src0 := getEmbedUrl p.credentials p.videoid p.liveChannelid
    let worked := applyParamSteps p.autoplay p.loop p.params
    Except.ok
      { src := addParamsToUrl src0 worked.1
        autoplay := worked.2.1
        loop := worked.2.2
        playerState := createDefaultInfo
        sandbox := "allow-scripts allow-same-origin allow-presentation" }

/-! Concrete sample inputs, used to instantiate the claim theorems. -/

/-- Sample payload delivering the ended player-state code (0). -/
def payloadEnded : String → JsVal :=
  fun k => if k = "playerState" then JsVal.num (JsNum.int 0) else JsVal.undef

/-- Sample payload delivering the unknown player-state code 4. -/
def payloadCode4 : String → JsVal :=
  fun k => if k = "playerState" then JsVal.num (JsNum.int 4) else JsVal.undef

/-- Sample payload delivering a currentTime of 5 and nothing else. -/
def payloadTime5 : String → JsVal :=
  fun k => if k = "currentTime" then JsVal.num (JsNum.int 5) else JsVal.undef

/-- Sample payload delivering currentTime 7 and an explicitly null duration. -/
def payloadTime7NullDuration : String → JsVal :=
  fun k =>
    if k = "currentTime" then JsVal.num (JsNum.int 7)
    else if k = "duration" then JsVal.null
    else JsVal.undef

/-- Sample payload with an explicit muted-false field (an unmute signal). -/
def payloadUnmuteSignal : String → JsVal :=
  fun k => if k = "muted" then JsVal.boolean false else JsVal.undef

/-- Sample infoDelivery message carrying the ended code. -/
def dataEnded : ParsedData :=
  { event := some "infoDelivery", info := some payloadEnded }

/-- Sample infoDelivery message carrying the unknown code 4. -/
def dataCode4 : ParsedData :=
  { event := some "infoDelivery", info := some payloadCode4 }

/-- Sample message whose event name is neither initialDelivery nor
infoDelivery, but which carries a non-null info payload. -/
def dataForeignTime5 : ParsedData :=
  { event := some "foo", info := some payloadTime5 }

/-- Sample infoDelivery message carrying currentTime 7 and a null duration. -/
def dataTime7 : ParsedData :=
  { event := some "infoDelivery", info := some payloadTime7NullDuration }

/-- Sample infoDelivery message carrying an explicit unmute signal. -/
def dataUnmuteSignal : ParsedData :=
  { event := some "infoDelivery", info := some payloadUnmuteSignal }

/-- Sample props with only the video id set. -/
def propsVideoOnly : YoutubeProps :=
  { autoplay := false, loop := false, videoid := some "abc", liveChannelid := none,
    params := [], credentials := none }

/-- Sample props with both identifiers set. -/
def propsBothIds : YoutubeProps :=
  { autoplay := false, loop := false, videoid := some "abc", liveChannelid := some "xyz",
    params := [], credentials := none }

/-- Sample props with autoplay set and a caller-supplied playsinline of zero. -/
def propsAutoplayInline : YoutubeProps :=
  { autoplay := true, loop := false, videoid := some "abc", liveChannelid := none,
    params := [("playsinline", "0")], credentials := none }

/-- Sample props with loop set and a playlist parameter. -/
def propsLoopPlaylist : YoutubeProps :=
  { autoplay := false, loop := true, videoid := some "abc", liveChannelid := none,
    params := [("playlist", "PL1")], credentials := none }

/-- Sample props with loop set and no playlist parameter. -/
def propsLoopNoPlaylist : YoutubeProps :=
  { autoplay := false, loop := true, videoid := some "abc", liveChannelid := none,
    params := [], credentials := none }

/-- The component built from `propsAutoplayInline`. -/
def builtAutoplayInline : BuiltComponent :=
  { src := { base := "https://www.youtube.com/embed/abc?enablejsapi=1&amp=1"
             query := [("playsinline", "1"), ("iv_load_policy", "3")] }
    autoplay := true
    loop := false
    playerState := createDefaultInfo
    sandbox := "allow-scripts allow-same-origin allow-presentation" }

/-- The component built from `propsLoopPlaylist`. -/
def builtLoopPlaylist : BuiltComponent :=
  { src := { base := "https://www.youtube.com/embed/abc?enablejsapi=1&amp=1"
             query := [("playlist", "PL1"), ("playsinline", "1"), ("loop", "1")] }
    autoplay := false
    loop := true
    playerState := createDefaultInfo
    sandbox := "allow-scripts allow-same-origin allow-presentation" }

/-- The component built from `propsLoopNoPlaylist`. -/
def builtLoopNoPlaylist : BuiltComponent :=
  { src := { base := "https://www.youtube.com/embed/abc?enablejsapi=1&amp=1"
             query := [("playsinline", "1")] }
    autoplay := false
    loop := true
    playerState := createDefaultInfo
    sandbox := "allow-scripts allow-same-origin allow-presentation" }

/-! Helper lemmas: the decimal rendering of integers is injective. -/

theorem digitsVal_natDigitsRevAux (fuel : Nat) :
    ∀ n, n ≤ fuel → digitsVal (natDigitsRevAux fuel n) = n := by
  induction fuel with
  | zero =>
    intro n hn
    have hn0 : n = 0 := Nat.le_zero.mp hn
    subst hn0
    rfl
  | succ fuel ih =>
    intro n hn
    cases n with
    | zero => rfl
    | succ m =>
      have hstep : natDigitsRevAux (fuel + 1) (m + 1) =
          (m + 1) % 10 :: natDigitsRevAux fuel ((m + 1) / 10) := rfl
      rw [hstep]
      have hle : (m + 1) / 10 ≤ fuel := by omega
      simp only [digitsVal, ih _ hle]
      omega

theorem digitsVal_natDigitsRev (n : Nat) : digitsVal (natDigitsRev n) = n :=
  digitsVal_natDigitsRevAux n n le_rfl

theorem natDigitsRev_injective : Function.Injective natDigitsRev := by
  intro a b h
  have := congrArg digitsVal h
  rwa [digitsVal_natDigitsRev, digitsVal_natDigitsRev] at this

theorem natDigitsRevAux_lt (fuel : Nat) :
    ∀ n, ∀ d ∈ natDigitsRevAux fuel n, d < 10 := by
  induction fuel with
  | zero =>
    intro n d hd
    simp [natDigitsRevAux] at hd
  | succ fuel ih =>
    intro n d hd
    cases n with
    | zero => simp [natDigitsRevAux] at hd
    | succ m =>
      have hstep : natDigitsRevAux (fuel + 1) (m + 1) =
          (m + 1) % 10 :: natDigitsRevAux fuel ((m + 1) / 10) := rfl
      rw [hstep] at hd
      rcases List.mem_cons.mp hd with h | h
      · omega
      · exact ih _ d h

theorem natDigitsRev_lt (n : Nat) : ∀ d ∈ natDigitsRev n, d < 10 :=
  natDigitsRevAux_lt n n

theorem toNat_digitChar (d : Nat) (hd : d < 10) :
    (Char.ofNat (48 + d)).toNat = 48 + d := by
  interval_cases d <;> decide

theorem map_charToDigit_digits (l : List Nat) (hl : ∀ d ∈ l, d < 10) :
    (l.map fun d => Char.ofNat (48 + d)).map charToDigit = l := by
  induction l with
  | nil => rfl
  | cons d ds ih =>
    have hd : d < 10 := hl d (List.mem_cons_self d ds)
    have hds : ∀ x ∈ ds, x < 10 := fun x hx => hl x (List.mem_cons_of_mem d hx)
    simp only [List.map_cons, ih hds, List.cons.injEq, and_true]
    unfold charToDigit
    rw [toNat_digitChar d hd]
    omega

theorem digitChars_inj (l1 l2 : List Nat) (h1 : ∀ d ∈ l1, d < 10)
    (h2 : ∀ d ∈ l2, d < 10)
    (h : (l1.map fun d => Char.ofNat (48 + d)) = l2.map fun d => Char.ofNat (48 + d)) :
    l1 = l2 := by
  have := congrArg (List.map charToDigit) h
  rwa [map_charToDigit_digits l1 h1, map_charToDigit_digits l2 h2] at this

theorem natToDecimal_injective : Function.Injective natToDecimal := by
  intro a b h
  unfold natToDecimal at h
  by_cases ha : a = 0 <;> by_cases hb : b = 0
  · rw [ha, hb]
  · exfalso
    rw [if_pos ha, if_neg hb] at h
    have hdata := congrArg String.data h
    have hrev : (natDigitsRev b).reverse = [0] := by
      apply digitChars_inj ((natDigitsRev b).reverse) [0]
      · intro d hd
        exact natDigitsRev_lt b d (List.mem_reverse.mp hd)
      · intro d hd
        simp at hd
        omega
      · have : ((natDigitsRev b).reverse.map fun d => Char.ofNat (48 + d)) = ['0'] := by
          have := hdata.symm
          simpa [List.asString] using this
        simpa using this
    have : natDigitsRev b = [0] := by
      have := congrArg List.reverse hrev
      simpa using this
    have hb0 := digitsVal_natDigitsRev b
    rw [this] at hb0
    simp [digitsVal] at hb0
    exact hb (hb0.symm)
  · exfalso
    rw [if_neg ha, if_pos hb] at h
    have hdata := congrArg String.data h
    have hrev : (natDigitsRev a).reverse = [0] := by
      apply digitChars_inj ((natDigitsRev a).reverse) [0]
      · intro d hd
        exact natDigitsRev_lt a d (List.mem_reverse.mp hd)
      · intro d hd
        simp at hd
        omega
      · have : ((natDigitsRev a).reverse.map fun d => Char.ofNat (48 + d)) = ['0'] := by
          simpa [List.asString] using hdata
        simpa using this
    have : natDigitsRev a = [0] := by
      have := congrArg List.reverse hrev
      simpa using this
    have ha0 := digitsVal_natDigitsRev a
    rw [this] at ha0
    simp [digitsVal] at ha0
    exact ha (ha0.symm)
  · rw [if_neg ha, if_neg hb] at h
    have hdata := congrArg String.data h
    have hmap : ((natDigitsRev a).reverse.map fun d => Char.ofNat (48 + d)) =
        (natDigitsRev b).reverse.map fun d => Char.ofNat (48 + d) := by
      simpa [List.asString] using hdata
    have hrev := digitChars_inj _ _
      (fun d hd => natDigitsRev_lt a d (List.mem_reverse.mp hd))
      (fun d hd => natDigitsRev_lt b d (List.mem_reverse.mp hd)) hmap
    have : natDigitsRev a = natDigitsRev b := by
      have := congrArg List.reverse hrev
      simpa using this
    exact natDigitsRev_injective this

theorem minus_ne_natToDecimal (s : String) (n : Nat) : "-" ++ s ≠ natToDecimal n := by
  intro h
  have hdata := congrArg String.data h
  rw [String.data_append] at hdata
  unfold natToDecimal at hdata
  by_cases hn : n = 0
  · rw [if_pos hn] at hdata
    have : '-' = '0' := by
      have := List.head_eq_of_cons_eq hdata
      exact this
    exact absurd this (by decide)
  · rw [if_neg hn] at hdata
    have hmem : '-' ∈ (natDigitsRev n).reverse.map fun d => Char.ofNat (48 + d) := by
      have : '-' ∈ ("-".data ++ s.data) := by simp
      rw [hdata] at this
      simpa [List.asString] using this
    obtain ⟨d, hd, hchar⟩ := List.mem_map.mp hmem
    have hdlt : d < 10 := natDigitsRev_lt n d (List.mem_reverse.mp hd)
    have := congrArg Char.toNat hchar
    rw [toNat_digitChar d hdlt] at this
    have hminus : ('-').toNat = 45 := by decide
    omega

theorem intToDecimal_injective : Function.Injective intToDecimal := by
  intro a b h
  cases a with
  | ofNat m =>
    cases b with
    | ofNat n =>
      exact congrArg Int.ofNat (natToDecimal_injective h)
    | negSucc n =>
      exact absurd h.symm (minus_ne_natToDecimal _ _)
  | negSucc m =>
    cases b with
    | ofNat n =>
      exact absurd h (minus_ne_natToDecimal _ _)
    | negSucc n =>
      have hs : natToDecimal (m + 1) = natToDecimal (n + 1) := by
        have hdata := congrArg String.data h
        simp only [intToDecimal, String.data_append] at hdata
        exact String.ext (List.append_cancel_left hdata)
      have hmn := natToDecimal_injective hs
      have : m = n := by omega
      rw [this]

/-! Helper lemmas about the `PlayerStates` table. -/

theorem PlayerStates_known {s x : String} (h : PlayerStates s = some x) :
    (s = "-1" ∧ x = "unstarted") ∨ (s = "0" ∧ x = "ended") ∨ (s = "1" ∧ x = "playing") ∨
      (s = "2" ∧ x = "pause") ∨ (s = "3" ∧ x = "buffering") ∨ (s = "5" ∧ x = "video_cued") := by
  unfold PlayerStates at h
  split at h
  · exact Or.inl ⟨by assumption, (Option.some.injEq _ _ ▸ h).symm⟩
  all_goals split at h
  · exact Or.inr (Or.inl ⟨by assumption, (Option.some.injEq _ _ ▸ h).symm⟩)
  all_goals split at h
  · exact Or.inr (Or.inr (Or.inl ⟨by assumption, (Option.some.injEq _ _ ▸ h).symm⟩))
  all_goals split at h
  · exact Or.inr (Or.inr (Or.inr (Or.inl ⟨by assumption, (Option.some.injEq _ _ ▸ h).symm⟩)))
  all_goals split at h
  · exact Or.inr (Or.inr (Or.inr (Or.inr (Or.inl
      ⟨by assumption, (Option.some.injEq _ _ ▸ h).symm⟩))))
  all_goals split at h
  · exact Or.inr (Or.inr (Or.inr (Or.inr (Or.inr
      ⟨by assumption, (Option.some.injEq _ _ ▸ h).symm⟩))))
  · exact absurd h (by simp)

theorem PlayerStates_of_unknown_code {c : Int}
    (hc : c ∉ ([-1, 0, 1, 2, 3, 5] : List Int)) :
    PlayerStates (intToDecimal c) = none := by
  cases hps : PlayerStates (intToDecimal c) with
  | none => rfl
  | some x =>
    exfalso
    apply hc
    rcases PlayerStates_known hps with ⟨hs, _⟩ | ⟨hs, _⟩ | ⟨hs, _⟩ | ⟨hs, _⟩ | ⟨hs, _⟩ | ⟨hs, _⟩
    · have : intToDecimal c = intToDecimal (-1) := by rw [hs]; decide
      have := intToDecimal_injective this
      simp [this]
    · have : intToDecimal c = intToDecimal 0 := by rw [hs]; decide
      have := intToDecimal_injective this
      simp [this]
    · have : intToDecimal c = intToDecimal 1 := by rw [hs]; decide
      have := intToDecimal_injective this
      simp [this]
    · have : intToDecimal c = intToDecimal 2 := by rw [hs]; decide
      have := intToDecimal_injective this
      simp [this]
    · have : intToDecimal c = intToDecimal 3 := by rw [hs]; decide
      have := intToDecimal_injective this
      simp [this]
    · have : intToDecimal c = intToDecimal 5 := by rw [hs]; decide
      have := intToDecimal_injective this
      simp [this]

theorem PlayerStates_values {s x : String} (h : PlayerStates s = some x) :
    x = "unstarted" ∨ x = "ended" ∨ x = "playing" ∨ x = "pause" ∨ x = "buffering" ∨
      x = "video_cued" := by
  rcases PlayerStates_known h with ⟨_, hx⟩ | ⟨_, hx⟩ | ⟨_, hx⟩ | ⟨_, hx⟩ | ⟨_, hx⟩ | ⟨_, hx⟩ <;>
    simp [hx]

/-! Helper lemmas about the parameter-mapping operations. -/

theorem hasParam_iff {ps : Params} {k : String} :
    hasParam ps k = true ↔ ∃ v, (k, v) ∈ ps := by
  unfold hasParam
  rw [List.any_eq_true]
  constructor
  · rintro ⟨⟨k1, v⟩, hmem, hk⟩
    simp at hk
    exact ⟨v, by rwa [hk] at hmem⟩
  · rintro ⟨v, hmem⟩
    exact ⟨(k, v), hmem, by simp⟩

theorem hasParam_of_mem {ps : Params} {k v : String} (h : (k, v) ∈ ps) :
    hasParam ps k = true :=
  hasParam_iff.mpr ⟨v, h⟩

theorem not_mem_of_hasParam_false {ps : Params} {k : String}
    (h : hasParam ps k = false) : ∀ v, (k, v) ∉ ps := by
  intro v hmem
  rw [hasParam_of_mem hmem] at h
  exact absurd h (by simp)

theorem mem_setParam_self (ps : Params) (k v : String) : (k, v) ∈ setParam ps k v := by
  unfold setParam
  split
  · rename_i hhas
    obtain ⟨w, hmem⟩ := hasParam_iff.mp hhas
    exact List.mem_map.mpr ⟨(k, w), hmem, by simp⟩
  · exact List.mem_append_right _ (by simp)

theorem mem_setParam_ne {ps : Params} {k k' v v' : String} (hne : k' ≠ k) :
    (k', v') ∈ setParam ps k v ↔ (k', v') ∈ ps := by
  unfold setParam
  split
  · rw [List.mem_map]
    constructor
    · rintro ⟨p, hp, hfp⟩
      by_cases hpk : p.1 = k
      · rw [if_pos hpk] at hfp
        exact absurd (congrArg Prod.fst hfp).symm hne
      · rw [if_neg hpk] at hfp
        rwa [hfp] at hp
    · intro hp
      refine ⟨(k', v'), hp, ?_⟩
      rw [if_neg hne]
  · rw [List.mem_append]
    constructor
    · rintro (hmem | hmem)
      · exact hmem
      · simp at hmem
        exact absurd hmem.1 hne
    · exact fun hmem => Or.inl hmem

theorem setParam_forced {ps : Params} {k v v' : String}
    (h : (k, v') ∈ setParam ps k v) : v' = v := by
  unfold setParam at h
  split at h
  · obtain ⟨p, hp, hfp⟩ := List.mem_map.mp h
    by_cases hpk : p.1 = k
    · rw [if_pos hpk] at hfp
      exact (congrArg Prod.snd hfp).symm
    · rw [if_neg hpk] at hfp
      rw [hfp] at hpk
      exact absurd rfl hpk
  · rename_i hhas
    rcases List.mem_append.mp h with hmem | hmem
    · exact absurd (hasParam_of_mem hmem) (by simp_all)
    · simp at hmem
      exact hmem

theorem mem_deleteParam_ne {ps : Params} {k k' v' : String} (hne : k' ≠ k) :
    (k', v') ∈ deleteParam ps k ↔ (k', v') ∈ ps := by
  unfold deleteParam
  rw [List.mem_filter]
  simp [hne]

theorem hasParam_deleteParam_self (ps : Params) (k : String) :
    hasParam (deleteParam ps k) k = false := by
  rw [Bool.eq_false_iff]
  intro hhas
  obtain ⟨v, hmem⟩ := hasParam_iff.mp hhas
  unfold deleteParam at hmem
  have := (List.mem_filter.mp hmem).2
  simp at this

theorem hasParam_setParam_self (ps : Params) (k v : String) :
    hasParam (setParam ps k v) k = true :=
  hasParam_of_mem (mem_setParam_self ps k v)

theorem hasParam_setParam_ne {ps : Params} {k k' : String} (v : String) (hne : k' ≠ k) :
    hasParam (setParam ps k v) k' = hasParam ps k' := by
  cases hps : hasParam ps k' with
  | true =>
    obtain ⟨w, hmem⟩ := hasParam_iff.mp hps
    exact hasParam_of_mem ((mem_setParam_ne hne).mpr hmem)
  | false =>
    rw [Bool.eq_false_iff]
    intro hhas
    obtain ⟨w, hmem⟩ := hasParam_iff.mp hhas
    have := (mem_setParam_ne hne).mp hmem
    exact not_mem_of_hasParam_false hps w this

theorem hasParam_deleteParam_ne {ps : Params} {k k' : String} (hne : k' ≠ k) :
    hasParam (deleteParam ps k) k' = hasParam ps k' := by
  cases hps : hasParam ps k' with
  | true =>
    obtain ⟨w, hmem⟩ := hasParam_iff.mp hps
    exact hasParam_of_mem ((mem_deleteParam_ne hne).mpr hmem)
  | false =>
    rw [Bool.eq_false_iff]
    intro hhas
    obtain ⟨w, hmem⟩ := hasParam_iff.mp hhas
    have := (mem_deleteParam_ne hne).mp hmem
    exact not_mem_of_hasParam_false hps w this

/-! Helper lemmas about the effect projections. -/

@[simp]
theorem postedMessages_nil : postedMessages [] = [] := rfl

@[simp]
theorem postedMessages_append (a b : List Effect) :
    postedMessages (a ++ b) = postedMessages a ++ postedMessages b :=
  List.filterMap_append a b _

@[simp]
theorem postedMessages_dispatch (n : Option String) :
    postedMessages (dispatchVideoEvent n) = [] := rfl

@[simp]
theorem postedMessages_post (m : OutMsg) : postedMessages (postToFrame m) = [m] := rfl

@[simp]
theorem dispatchedEvents_nil : dispatchedEvents [] = [] := rfl

@[simp]
theorem dispatchedEvents_append (a b : List Effect) :
    dispatchedEvents (a ++ b) = dispatchedEvents a ++ dispatchedEvents b :=
  List.filterMap_append a b _

@[simp]
theorem dispatchedEvents_dispatch (n : Option String) :
    dispatchedEvents (dispatchVideoEvent n) = [n] := rfl

@[simp]
theorem dispatchedEvents_post (m : OutMsg) :
    dispatchedEvents (postToFrame m) = [] := rfl

/-! Helper lemmas about the parameter pipeline steps. -/

theorem stepPlaysinlineDefault_hasParam_ne {ps : Params} {k : String}
    (hk : k ≠ "playsinline") :
    hasParam (stepPlaysinlineDefault ps) k = hasParam ps k := by
  unfold stepPlaysinlineDefault
  split
  · exact hasParam_setParam_ne _ hk
  · rfl

theorem stepPlaysinlineDefault_mem_ne {ps : Params} {k v : String}
    (hk : k ≠ "playsinline") :
    (k, v) ∈ stepPlaysinlineDefault ps ↔ (k, v) ∈ ps := by
  unfold stepPlaysinlineDefault
  split
  · exact mem_setParam_ne hk
  · exact Iff.rfl

theorem stepAutoplayKey_hasParam_ne {ps : Params} {k : String} (a : Bool)
    (hk : k ≠ "autoplay") :
    hasParam (stepAutoplayKey a ps).1 k = hasParam ps k := by
  unfold stepAutoplayKey
  split
  · exact hasParam_deleteParam_ne hk
  · rfl

theorem stepAutoplayKey_mem_ne {ps : Params} {k v : String} (a : Bool)
    (hk : k ≠ "autoplay") :
    (k, v) ∈ (stepAutoplayKey a ps).1 ↔ (k, v) ∈ ps := by
  unfold stepAutoplayKey
  split
  · exact mem_deleteParam_ne hk
  · exact Iff.rfl

theorem stepAutoplayKey_flag {ps : Params} {a : Bool} :
    (stepAutoplayKey a ps).2 = true ↔ a = true ∨ hasParam ps "autoplay" = true := by
  unfold stepAutoplayKey
  split
  · rename_i hhas
    simp [hhas]
  · rename_i hhas
    simp [hhas]

theorem stepAutoplayFlags_hasParam_ne {ps : Params} {k : String} (a : Bool)
    (hk1 : k ≠ "playsinline") (hk2 : k ≠ "iv_load_policy") :
    hasParam (stepAutoplayFlags a ps) k = hasParam ps k := by
  unfold stepAutoplayFlags
  split
  · rw [hasParam_setParam_ne _ hk1]
    split
    · exact hasParam_setParam_ne _ hk2
    · rfl
  · rfl

theorem stepAutoplayFlags_mem_ne {ps : Params} {k v : String} (a : Bool)
    (hk1 : k ≠ "playsinline") (hk2 : k ≠ "iv_load_policy") :
    (k, v) ∈ stepAutoplayFlags a ps ↔ (k, v) ∈ ps := by
  unfold stepAutoplayFlags
  split
  · rw [mem_setParam_ne hk1]
    split
    · exact mem_setParam_ne hk2
    · exact Iff.rfl
  · exact Iff.rfl

theorem stepAutoplayFlags_main {ps : Params}
    (hiv : hasParam ps "iv_load_policy" = false) :
    ("iv_load_policy", "3") ∈ stepAutoplayFlags true ps ∧
      ("playsinline", "1") ∈ stepAutoplayFlags true ps ∧
      ∀ v, ("playsinline", v) ∈ stepAutoplayFlags true ps → v = "1" := by
  unfold stepAutoplayFlags
  rw [if_pos rfl]
  have hthree : natToDecimal hideAnnotationFlag = "3" := by decide
  rw [if_pos (by simp [hiv])]
  refine ⟨?_, ?_, ?_⟩
  · rw [mem_setParam_ne (by decide)]
    rw [hthree]
    exact mem_setParam_self _ _ _
  · exact mem_setParam_self _ _ _
  · intro v hv
    exact setParam_forced hv

theorem stepLoopKey_hasParam_ne {ps : Params} {k : String} (l : Bool)
    (hk : k ≠ "loop") :
    hasParam (stepLoopKey l ps).1 k = hasParam ps k := by
  unfold stepLoopKey
  split
  · exact hasParam_deleteParam_ne hk
  · rfl

theorem stepLoopKey_mem_ne {ps : Params} {k v : String} (l : Bool)
    (hk : k ≠ "loop") :
    (k, v) ∈ (stepLoopKey l ps).1 ↔ (k, v) ∈ ps := by
  unfold stepLoopKey
  split
  · exact mem_deleteParam_ne hk
  · exact Iff.rfl

theorem stepLoopKey_no_loop (l : Bool) (ps : Params) :
    hasParam (stepLoopKey l ps).1 "loop" = false := by
  unfold stepLoopKey
  split
  · exact hasParam_deleteParam_self ps "loop"
  · rename_i hhas
    simpa using hhas

theorem stepLoopKey_flag {ps : Params} {l : Bool} :
    (stepLoopKey l ps).2 = true ↔ l = true ∨ hasParam ps "loop" = true := by
  unfold stepLoopKey
  split
  · rename_i hhas
    simp [hhas]
  · rename_i hhas
    simp [hhas]

theorem stepLoopFlag_hasParam_ne {ps : Params} {k : String} (l : Bool)
    (hk : k ≠ "loop") :
    hasParam (stepLoopFlag l ps) k = hasParam ps k := by
  unfold stepLoopFlag
  split
  · split
    · exact hasParam_setParam_ne _ hk
    · split
      · exact hasParam_deleteParam_ne hk
      · rfl
  · rfl

theorem stepLoopFlag_mem_ne {ps : Params} {k v : String} (l : Bool)
    (hk : k ≠ "loop") :
    (k, v) ∈ stepLoopFlag l ps ↔ (k, v) ∈ ps := by
  unfold stepLoopFlag
  split
  · split
    · exact mem_setParam_ne hk
    · split
      · exact mem_deleteParam_ne hk
      · exact Iff.rfl
  · exact Iff.rfl

theorem stepLoopFlag_playlist {ps : Params}
    (hpl : hasParam ps "playlist" = true) :
    ("loop", "1") ∈ stepLoopFlag true ps := by
  unfold stepLoopFlag
  rw [if_pos rfl, if_pos hpl]
  exact mem_setParam_self _ _ _

theorem stepLoopFlag_no_playlist {ps : Params} (l : Bool)
    (hpl : hasParam ps "playlist" = false)
    (hlp : hasParam ps "loop" = false) :
    hasParam (stepLoopFlag l ps) "loop" = false := by
  unfold stepLoopFlag
  split
  · rw [if_neg (by simp [hpl]), if_neg (by simp [hlp])]
    exact hlp
  · exact hlp

/-- Inversion of a successful construction: the component handed to the
wrapper is exactly the one built from the embed URL and the worked
parameters. -/
theorem YoutubeWithRef_ok_elim {p : YoutubeProps} {c : BuiltComponent}
    (h : YoutubeWithRef p = Except.ok c) :
    c = { src := addParamsToUrl (getEmbedUrl p.credentials p.videoid p.liveChannelid)
                   (applyParamSteps p.autoplay p.loop p.params).1
          autoplay := (applyParamSteps p.autoplay p.loop p.params).2.1
          loop := (applyParamSteps p.autoplay p.loop p.params).2.2
          playerState := createDefaultInfo
          sandbox := "allow-scripts allow-same-origin allow-presentation" } := by
  unfold YoutubeWithRef at h
  dsimp only at h
  split at h
  · exact absurd h (by simp)
  · injection h with h1
    exact h1.symm

/-- Core of C5 at the level of the worked parameter mapping. -/
theorem applyParamSteps_autoplay (a l : Bool) (ps : Params)
    (hiv : hasParam ps "iv_load_policy" = false)
    (hauto : a = true ∨ hasParam ps "autoplay" = true) :
    ("iv_load_policy", "3") ∈ (applyParamSteps a l ps).1 ∧
      ("playsinline", "1") ∈ (applyParamSteps a l ps).1 ∧
      ∀ v, ("playsinline", v) ∈ (applyParamSteps a l ps).1 → v = "1" := by
  unfold applyParamSteps
  dsimp only
  have hflag : (stepAutoplayKey a (stepPlaysinlineDefault ps)).2 = true := by
    rw [stepAutoplayKey_flag]
    rcases hauto with h | h
    · exact Or.inl h
    · right
      rw [stepPlaysinlineDefault_hasParam_ne (by decide)]
      exact h
  have hiv2 : hasParam (stepAutoplayKey a (stepPlaysinlineDefault ps)).1 "iv_load_policy" =
      false := by
    rw [stepAutoplayKey_hasParam_ne _ (by decide),
      stepPlaysinlineDefault_hasParam_ne (by decide)]
    exact hiv
  rw [hflag]
  obtain ⟨h1, h2, h3⟩ := stepAutoplayFlags_main hiv2
  refine ⟨?_, ?_, ?_⟩
  · rw [stepLoopFlag_mem_ne _ (by decide), stepLoopKey_mem_ne _ (by decide)]
    exact h1
  · rw [stepLoopFlag_mem_ne _ (by decide), stepLoopKey_mem_ne _ (by decide)]
    exact h2
  · intro v hv
    rw [stepLoopFlag_mem_ne _ (by decide), stepLoopKey_mem_ne _ (by decide)] at hv
    exact h3 v hv

/-- Core of C6 at the level of the worked parameter mapping. -/
theorem applyParamSteps_loop (a l : Bool) (ps : Params)
    (hloop : l = true ∨ hasParam ps "loop" = true) :
    (hasParam ps "playlist" = true → ("loop", "1") ∈ (applyParamSteps a l ps).1) ∧
      (hasParam ps "playlist" = false →
        hasParam (applyParamSteps a l ps).1 "loop" = false) := by
  unfold applyParamSteps
  dsimp only
  have hl3 : hasParam (stepAutoplayFlags (stepAutoplayKey a (stepPlaysinlineDefault ps)).2
      (stepAutoplayKey a (stepPlaysinlineDefault ps)).1) "loop" = hasParam ps "loop" := by
    rw [stepAutoplayFlags_hasParam_ne _ (by decide) (by decide),
      stepAutoplayKey_hasParam_ne _ (by decide),
      stepPlaysinlineDefault_hasParam_ne (by decide)]
  have hpl3 : hasParam (stepAutoplayFlags (stepAutoplayKey a (stepPlaysinlineDefault ps)).2
      (stepAutoplayKey a (stepPlaysinlineDefault ps)).1) "playlist" =
      hasParam ps "playlist" := by
    rw [stepAutoplayFlags_hasParam_ne _ (by decide) (by decide),
      stepAutoplayKey_hasParam_ne _ (by decide),
      stepPlaysinlineDefault_hasParam_ne (by decide)]
  have hflag : (stepLoopKey l (stepAutoplayFlags (stepAutoplayKey a
      (stepPlaysinlineDefault ps)).2 (stepAutoplayKey a (stepPlaysinlineDefault ps)).1)).2 =
      true := by
    rw [stepLoopKey_flag]
    rcases hloop with h | h
    · exact Or.inl h
    · right
      rw [hl3]
      exact h
  have hnl := stepLoopKey_no_loop l (stepAutoplayFlags (stepAutoplayKey a
    (stepPlaysinlineDefault ps)).2 (stepAutoplayKey a (stepPlaysinlineDefault ps)).1)
  have hpl4 : hasParam (stepLoopKey l (stepAutoplayFlags (stepAutoplayKey a
      (stepPlaysinlineDefault ps)).2 (stepAutoplayKey a (stepPlaysinlineDefault ps)).1)).1
      "playlist" = hasParam ps "playlist" := by
    rw [stepLoopKey_hasParam_ne _ (by decide), hpl3]
  rw [hflag]
  constructor
  · intro hpl
    apply stepLoopFlag_playlist
    rw [hpl4]
    exact hpl
  · intro hpl
    apply stepLoopFlag_no_playlist
    · rw [hpl4]
      exact hpl
    · exact hnl

/-! Claim theorems. -/

/-- C1: construction succeeds, with an embed URL built, exactly when exactly
one of the video id and the live-channel id is set (JS-truthy, i.e. present
and non-empty); when both or neither are set, the descriptive configuration
error is returned instead, before any URL is built (the error branch of the
embedding returns without constructing a URL). -/
theorem construction_iff_exactly_one_id (p : YoutubeProps) :
    (strTruthy p.videoid ≠ strTruthy p.liveChannelid →
      ∃ c, YoutubeWithRef p = Except.ok c) ∧
    (strTruthy p.videoid = strTruthy p.liveChannelid →
      YoutubeWithRef p = Except.error
        "Exactly one of data-videoid or data-live-channelid should be present for <amp-youtube>") := by
  constructor
  · intro h
    have hds : (!(strTruthy p.videoid && strTruthy p.liveChannelid) &&
        (strTruthy p.videoid || strTruthy p.liveChannelid)) = true := by
      cases hv : strTruthy p.videoid <;> cases hl : strTruthy p.liveChannelid <;> simp_all
    unfold YoutubeWithRef
    rw [hds]
    exact ⟨_, rfl⟩
  · intro h
    have hds : (!(strTruthy p.videoid && strTruthy p.liveChannelid) &&
        (strTruthy p.videoid || strTruthy p.liveChannelid)) = false := by
      cases hv : strTruthy p.videoid <;> cases hl : strTruthy p.liveChannelid <;> simp_all
    unfold YoutubeWithRef
    rw [hds]
    rfl

/-- C1 witness: with only the video id set, construction succeeds; with both
identifiers set, the configuration error is returned. -/
theorem construction_iff_exactly_one_id_witness :
    (strTruthy propsVideoOnly.videoid ≠ strTruthy propsVideoOnly.liveChannelid ∧
      ∃ c, YoutubeWithRef propsVideoOnly = Except.ok c) ∧
    (strTruthy propsBothIds.videoid = strTruthy propsBothIds.liveChannelid ∧
      YoutubeWithRef propsBothIds = Except.error
        "Exactly one of data-videoid or data-live-channelid should be present for <amp-youtube>") :=
  ⟨⟨by decide, (construction_iff_exactly_one_id propsVideoOnly).1 (by decide)⟩,
    ⟨by decide, (construction_iff_exactly_one_id propsBothIds).2 (by decide)⟩⟩

/-- C2: on an infoDelivery message whose payload delivers player-state code
0 (ended), the handler posts exactly one command/playVideo message when the
captured loop flag is set, and posts no message at all when it is not: the
full list of posted messages equals the one-element playVideo command list
or the empty list respectively. -/
theorem ended_restart_command (loop : Bool) (st : PlayerInfo) (pd : ParsedData)
    (pi : String → JsVal) (hev : pd.event = some "infoDelivery")
    (hinfo : pd.info = some pi)
    (hps : pi "playerState" = JsVal.num (JsNum.int 0)) :
    postedMessages (onMessage loop st (some pd)).2 =
      if loop = true then [{ event := "command", func := some "playVideo" }] else [] := by
  obtain ⟨ev, info⟩ := pd
  replace hev : ev = some "infoDelivery" := hev
  replace hinfo : info = some pi := hinfo
  subst hev
  subst hinfo
  unfold onMessage
  dsimp only
  rw [if_neg (by decide : ¬ ((some "infoDelivery" : Option String) = some "initialDelivery"))]
  rw [hps]
  cases hmut : truthy (pi "muted") <;> cases loop <;>
    simp [looseEqZero, nonNull, hmut]

/-- C2 witness: the ended payload posts the single playVideo command when
looping and nothing when not looping. -/
theorem ended_restart_command_witness :
    dataEnded.event = some "infoDelivery" ∧ dataEnded.info = some payloadEnded ∧
      payloadEnded "playerState" = JsVal.num (JsNum.int 0) ∧
      postedMessages (onMessage true createDefaultInfo (some dataEnded)).2 =
        (if true = true then [{ event := "command", func := some "playVideo" }] else []) ∧
      postedMessages (onMessage false createDefaultInfo (some dataEnded)).2 =
        (if false = true then [{ event := "command", func := some "playVideo" }] else []) :=
  ⟨rfl, rfl, by decide,
    ended_restart_command true createDefaultInfo dataEnded payloadEnded rfl rfl (by decide),
    ended_restart_command false createDefaultInfo dataEnded payloadEnded rfl rfl (by decide)⟩

/-- C3 counterexample: an infoDelivery payload carrying the unknown
player-state code 4 still makes the handler dispatch a custom event — the
dispatched-event list is not empty; it contains one dispatch whose name is
the `undefined` table lookup — refuting that unknown codes dispatch no
event. -/
theorem unknown_code_still_dispatches :
    dispatchedEvents (onMessage false createDefaultInfo (some dataCode4)).2 = [none] ∧
      (onMessage false createDefaultInfo (some dataCode4)).2 ≠ [] := by decide

/-- C3 (amended): on an infoDelivery message delivering integer player-state
code c (with a falsy muted field, isolating the state dispatch), the handler
performs exactly one event dispatch, whose name is the table lookup of the
stringified code: for the six known codes that is the fixed mapping
(-1 unstarted, 0 ended, 1 playing, 2 pause, 3 buffering, 5 video_cued), and
for every other integer code the lookup is `undefined` (`none`) — the
dispatch still happens but carries no event name. -/
theorem state_code_dispatch (loop : Bool) (st : PlayerInfo) (pd : ParsedData)
    (pi : String → JsVal) (c : Int) (hev : pd.event = some "infoDelivery")
    (hinfo : pd.info = some pi) (hps : pi "playerState" = JsVal.num (JsNum.int c))
    (hmut : truthy (pi "muted") = false) :
    dispatchedEvents (onMessage loop st (some pd)).2 = [PlayerStates (intToDecimal c)] ∧
      (c ∉ ([-1, 0, 1, 2, 3, 5] : List Int) → PlayerStates (intToDecimal c) = none) ∧
      PlayerStates (intToDecimal (-1)) = some "unstarted" ∧
      PlayerStates (intToDecimal 0) = some "ended" ∧
      PlayerStates (intToDecimal 1) = some "playing" ∧
      PlayerStates (intToDecimal 2) = some "pause" ∧
      PlayerStates (intToDecimal 3) = some "buffering" ∧
      PlayerStates (intToDecimal 5) = some "video_cued" := by
  refine ⟨?_, fun hc => PlayerStates_of_unknown_code hc,
    by decide, by decide, by decide, by decide, by decide, by decide⟩
  obtain ⟨ev, info⟩ := pd
  replace hev : ev = some "infoDelivery" := hev
  replace hinfo : info = some pi := hinfo
  subst hev
  subst hinfo
  unfold onMessage
  dsimp only
  rw [if_neg (by decide : ¬ ((some "infoDelivery" : Option String) = some "initialDelivery"))]
  rw [hps]
  cases loop <;> by_cases hz : c = 0 <;>
    simp [hz, hmut, looseEqZero, nonNull, jsToString]

/-- C3 witness: the unknown code 4 yields exactly one dispatch and the table
lookup for it is `none`. -/
theorem state_code_dispatch_witness :
    payloadCode4 "playerState" = JsVal.num (JsNum.int 4) ∧
      truthy (payloadCode4 "muted") = false ∧
      dispatchedEvents (onMessage false createDefaultInfo (some dataCode4)).2 =
        [PlayerStates (intToDecimal 4)] ∧
      PlayerStates (intToDecimal 4) = none :=
  ⟨by decide, by decide,
    (state_code_dispatch false createDefaultInfo dataCode4 payloadCode4 4 rfl rfl
      (by decide) (by decide)).1,
    (state_code_dispatch false createDefaultInfo dataCode4 payloadCode4 4 rfl rfl
      (by decide) (by decide)).2.1 (by decide)⟩

/-- C4 counterexample: a message with the foreign event name "foo" but a
non-null info payload leaves no effects, yet mutates the player-state record
(currentTime is overwritten to 5) — refuting that the handler is a complete
no-op on such messages. -/
theorem foreign_event_still_merges :
    (onMessage false createDefaultInfo (some dataForeignTime5)).1 ≠ createDefaultInfo ∧
      (onMessage false createDefaultInfo (some dataForeignTime5)).2 = [] := by decide

/-- C4 (amended): on a message whose event is neither initialDelivery nor
infoDelivery, the handler dispatches no event and posts no message; the
player-state record is unchanged when the info payload is absent or null,
but a non-null info payload is still merged into the record (the merge loop
is not guarded by the event name). -/
theorem foreign_event_effects (loop : Bool) (st : PlayerInfo) (pd : ParsedData)
    (h1 : pd.event ≠ some "initialDelivery") (h2 : pd.event ≠ some "infoDelivery") :
    (onMessage loop st (some pd)).2 = [] ∧
      (onMessage loop st (some pd)).1 =
        (match pd.info with
          | none => st
          | some pi => mergeInfo st pi) := by
  obtain ⟨ev, info⟩ := pd
  replace h1 : ev ≠ some "initialDelivery" := h1
  replace h2 : ev ≠ some "infoDelivery" := h2
  unfold onMessage
  dsimp only
  rw [if_neg h1]
  cases info with
  | none => exact ⟨rfl, rfl⟩
  | some pi =>
    dsimp only
    refine ⟨?_, rfl⟩
    simp [h2]

/-- C4 witness: the foreign-event message with currentTime 5 produces no
effects and merges the payload into the record. -/
theorem foreign_event_effects_witness :
    dataForeignTime5.event ≠ some "initialDelivery" ∧
      dataForeignTime5.event ≠ some "infoDelivery" ∧
      (onMessage false createDefaultInfo (some dataForeignTime5)).2 = [] ∧
      (onMessage false createDefaultInfo (some dataForeignTime5)).1 =
        mergeInfo createDefaultInfo payloadTime5 :=
  ⟨by decide, by decide,
    (foreign_event_effects false createDefaultInfo dataForeignTime5
      (by decide) (by decide)).1,
    (foreign_event_effects false createDefaultInfo dataForeignTime5
      (by decide) (by decide)).2⟩

/-- C5: when no iv_load_policy key was supplied and autoplay is in effect
(as the prop or because an autoplay key was present in the parameters), the
produced URL's query contains iv_load_policy=3 and playsinline=1, and every
playsinline entry is forced to 1 regardless of the caller-supplied value. -/
theorem autoplay_url_flags (p : YoutubeProps) (c : BuiltComponent)
    (hok : YoutubeWithRef p = Except.ok c)
    (hiv : hasParam p.params "iv_load_policy" = false)
    (hauto : p.autoplay = true ∨ hasParam p.params "autoplay" = true) :
    ("iv_load_policy", "3") ∈ c.src.query ∧ ("playsinline", "1") ∈ c.src.query ∧
      ∀ v, ("playsinline", v) ∈ c.src.query → v = "1" := by
  have hc := YoutubeWithRef_ok_elim hok
  subst hc
  exact applyParamSteps_autoplay p.autoplay p.loop p.params hiv hauto

/-- C5 witness: autoplay props with a caller playsinline of 0 produce a URL
whose query carries iv_load_policy=3 and playsinline forced to 1. -/
theorem autoplay_url_flags_witness :
    YoutubeWithRef propsAutoplayInline = Except.ok builtAutoplayInline ∧
      hasParam propsAutoplayInline.params "iv_load_policy" = false ∧
      ("iv_load_policy", "3") ∈ builtAutoplayInline.src.query ∧
      ("playsinline", "1") ∈ builtAutoplayInline.src.query :=
  ⟨rfl, by decide,
    (autoplay_url_flags propsAutoplayInline builtAutoplayInline rfl (by decide)
      (Or.inl rfl)).1,
    (autoplay_url_flags propsAutoplayInline builtAutoplayInline rfl (by decide)
      (Or.inl rfl)).2.1⟩

/-- C6: when looping is in effect (as the prop or because a loop key was
present in the parameters): with a playlist parameter present the produced
URL's query contains loop=1; with no playlist parameter the query contains
no loop parameter at all. -/
theorem loop_url_param (p : YoutubeProps) (c : BuiltComponent)
    (hok : YoutubeWithRef p = Except.ok c)
    (hloop : p.loop = true ∨ hasParam p.params "loop" = true) :
    (hasParam p.params "playlist" = true → ("loop", "1") ∈ c.src.query) ∧
      (hasParam p.params "playlist" = false → hasParam c.src.query "loop" = false) := by
  have hc := YoutubeWithRef_ok_elim hok
  subst hc
  exact applyParamSteps_loop p.autoplay p.loop p.params hloop

/-- C6 witness: loop with a playlist yields loop=1 in the query; loop without
a playlist yields a query with no loop key. -/
theorem loop_url_param_witness :
    YoutubeWithRef propsLoopPlaylist = Except.ok builtLoopPlaylist ∧
      hasParam propsLoopPlaylist.params "playlist" = true ∧
      ("loop", "1") ∈ builtLoopPlaylist.src.query ∧
      YoutubeWithRef propsLoopNoPlaylist = Except.ok builtLoopNoPlaylist ∧
      hasParam propsLoopNoPlaylist.params "playlist" = false ∧
      hasParam builtLoopNoPlaylist.src.query "loop" = false :=
  ⟨rfl, by decide,
    (loop_url_param propsLoopPlaylist builtLoopPlaylist rfl (Or.inl rfl)).1 (by decide),
    rfl, by decide,
    (loop_url_param propsLoopNoPlaylist builtLoopNoPlaylist rfl (Or.inl rfl)).2 (by decide)⟩

/-- C7: on an infoDelivery message with a non-null info payload, the merge
overwrites exactly the two tracked fields (currentTime, duration) for which
the payload supplies a loosely non-null value, keeps the previous value for
null or absent payload fields, and never adds keys: for any state the key
list of the record is preserved. -/
theorem infoDelivery_merge_fields (loop : Bool) (ct dur : JsVal) (pd : ParsedData)
    (pi : String → JsVal) (hev : pd.event = some "infoDelivery")
    (hinfo : pd.info = some pi) :
    (onMessage loop [("currentTime", ct), ("duration", dur)] (some pd)).1 =
      [("currentTime", if nonNull (pi "currentTime") = true then pi "currentTime" else ct),
        ("duration", if nonNull (pi "duration") = true then pi "duration" else dur)] ∧
      ∀ st : PlayerInfo, ((onMessage loop st (some pd)).1).map Prod.fst = st.map Prod.fst := by
  obtain ⟨ev, info⟩ := pd
  replace hev : ev = some "infoDelivery" := hev
  replace hinfo : info = some pi := hinfo
  subst hev
  subst hinfo
  constructor
  · unfold onMessage
    dsimp only
    rw [if_neg (by decide : ¬ ((some "infoDelivery" : Option String) = some "initialDelivery"))]
    dsimp only
    simp only [mergeInfo, List.map_cons, List.map_nil]
    split_ifs <;> simp_all
  · intro st
    unfold onMessage
    dsimp only
    rw [if_neg (by decide : ¬ ((some "infoDelivery" : Option String) = some "initialDelivery"))]
    dsimp only
    simp only [mergeInfo, List.map_map]
    apply List.map_congr_left
    intro kv _
    dsimp only [Function.comp]
    split <;> rfl

/-- C7 witness: a payload with currentTime 7 and a null duration overwrites
currentTime, keeps the NaN duration, and preserves the key list. -/
theorem infoDelivery_merge_fields_witness :
    dataTime7.event = some "infoDelivery" ∧
      dataTime7.info = some payloadTime7NullDuration ∧
      (onMessage false
          [("currentTime", JsVal.num (JsNum.int 0)), ("duration", JsVal.num JsNum.nan)]
          (some dataTime7)).1 =
        [("currentTime", JsVal.num (JsNum.int 7)), ("duration", JsVal.num JsNum.nan)] ∧
      ((onMessage false createDefaultInfo (some dataTime7)).1).map Prod.fst =
        createDefaultInfo.map Prod.fst :=
  ⟨rfl, rfl,
    (infoDelivery_merge_fields false (JsVal.num (JsNum.int 0)) (JsVal.num JsNum.nan)
      dataTime7 payloadTime7NullDuration rfl rfl).1,
    (infoDelivery_merge_fields false (JsVal.num (JsNum.int 0)) (JsVal.num JsNum.nan)
      dataTime7 payloadTime7NullDuration rfl rfl).2 createDefaultInfo⟩

/-- C8: when the payload fails to parse (the safe parser yields nothing), the
handler returns with no effects and the player-state record untouched. -/
theorem unparsable_payload_noop (loop : Bool) (st : PlayerInfo) :
    onMessage loop st none = (st, []) := rfl

/-- C9: the iframe load callback performs exactly two actions, in order: it
dispatches the canplay event first and then posts the one-time listening
handshake message into the frame. -/
theorem iframe_load_sequence :
    onIframeLoad =
      [Effect.dispatchEvent (some "canplay"),
        Effect.postMessage { event := "listening", func := none }] := rfl

theorem PlayerStates_ne_unmuted (s : String) :
    PlayerStates s ≠ some VideoEventsUnmuted := by
  intro h
  rcases PlayerStates_values h with h | h | h | h | h | h <;> simp [VideoEventsUnmuted] at h

theorem PlayerStates_ne_muted (s : String) :
    PlayerStates s ≠ some VideoEventsMuted := by
  intro h
  rcases PlayerStates_values h with h | h | h | h | h | h <;> simp [VideoEventsMuted] at h

/-- C10: the handler can never dispatch the unmuted variant of the
mute/unmute event pair, for any inbound message; and on an info-delivery
payload whose muted field is falsy (including an explicit false), no
mute-related event is dispatched at all, because the mute branch is entered
only for a truthy muted value. -/
theorem only_muted_variant_dispatched (loop : Bool) (st : PlayerInfo)
    (data : Option ParsedData) :
    some VideoEventsUnmuted ∉ dispatchedEvents (onMessage loop st data).2 ∧
      (∀ pd pi, data = some pd → pd.info = some pi → truthy (pi "muted") = false →
        some VideoEventsMuted ∉ dispatchedEvents (onMessage loop st data).2) := by
  cases data with
  | none =>
    refine ⟨by simp [onMessage], fun pd pi hd => ?_⟩
    cases hd
  | some pd =>
    obtain ⟨ev, info⟩ := pd
    constructor
    · unfold onMessage
      dsimp only
      by_cases hev : ev = some "initialDelivery"
      · rw [if_pos hev]
        simp [VideoEventsUnmuted, VideoEventsLoadedMetadata]
      · rw [if_neg hev]
        cases info with
        | none => simp
        | some pi =>
          dsimp only
          split_ifs with hp hs hm <;>
            simp_all [mutedOrUnmutedEvent, VideoEventsMuted, VideoEventsUnmuted]
          all_goals
            intro h
            exact PlayerStates_ne_unmuted _ h.symm
    · rintro pd' pi' hd hinfo hmut
      injection hd with hd
      subst hd
      replace hinfo : info = some pi' := hinfo
      subst hinfo
      unfold onMessage
      dsimp only
      by_cases hev : ev = some "initialDelivery"
      · rw [if_pos hev]
        simp [VideoEventsMuted, VideoEventsLoadedMetadata]
      · rw [if_neg hev]
        dsimp only
        split_ifs with hp hs hm <;>
          simp_all [mutedOrUnmutedEvent, VideoEventsMuted, VideoEventsUnmuted]
        all_goals
          intro h
          exact PlayerStates_ne_muted _ h.symm

/-- C10 witness: an explicit muted-false payload dispatches neither variant
of the mute/unmute pair. -/
theorem only_muted_variant_dispatched_witness :
    truthy (payloadUnmuteSignal "muted") = false ∧
      some VideoEventsUnmuted ∉
        dispatchedEvents (onMessage false createDefaultInfo (some dataUnmuteSignal)).2 ∧
      some VideoEventsMuted ∉
        dispatchedEvents (onMessage false createDefaultInfo (some dataUnmuteSignal)).2 :=
  ⟨by decide,
    (only_muted_variant_dispatched false createDefaultInfo (some dataUnmuteSignal)).1,
    (only_muted_variant_dispatched false createDefaultInfo (some dataUnmuteSignal)).2
      dataUnmuteSignal payloadUnmuteSignal rfl rfl (by decide)⟩

end AmpYoutube
